import Mathlib

/-!
Verification of the Charry cluster transport layer.

This file gives a shallow embedding, in Lean 4, of the cluster transport and
membership layer of the Charry repository: the binary protocol codec
(package `tcp`), the heartbeat handling, the per-peer TCP connection pool,
the message router, the peer node lifecycle and the membership-diffing
manager (package `cluster`).  Each definition is a direct translation of the
corresponding Go function; machine integers (`uint32`, `uint64`) are
modelled as `Nat` with explicit `% 2^32` at conversion boundaries, byte
strings as `List Nat`, Go maps as functions or association lists, fallible
operations as `Option`/`Except`-style sums, and Go runtime panics as an
explicit outcome constructor.
-/

namespace Charry

/-- A wire byte, modelled as a natural number (every byte the code produces
is `< 256` by construction). -/
abbrev Byte := Nat

namespace tcp

/-- Heartbeat module number (`HeartbeatModule uint32 = 0`). -/
def HeartbeatModule : Nat := 0

/-- Heartbeat command number (`HeartbeatCmd uint32 = 1`). -/
def HeartbeatCmd : Nat := 1

/-- Heartbeat response code (`HeartbeatCode uint32 = 0`). -/
def HeartbeatCode : Nat := 0

/-- Message type tag for requests (`MsgTypeRequest byte = 0`). -/
def MsgTypeRequest : Byte := 0

/-- Message type tag for responses (`MsgTypeResponse byte = 1`). -/
def MsgTypeResponse : Byte := 1

/-- Length of the `Len` field in bytes. -/
def HeaderLenSize : Nat := 4

/-- Length of the `IsResp` field in bytes. -/
def HeaderIsRespSize : Nat := 1

/-- Length of the `Module` field in bytes. -/
def HeaderModuleSize : Nat := 4

/-- Length of the `Cmd` field in bytes. -/
def HeaderCmdSize : Nat := 4

/-- Length of the `SessionId` field in bytes (a UUID). -/
def HeaderSessionIdSize : Nat := 36

/-- Length of the `Code` field in bytes (response messages only). -/
def HeaderCodeSize : Nat := 4

/-- Request header size: 4 + 1 + 4 + 4 + 36 = 49. -/
def ClusterReqHeaderSize : Nat :=
  HeaderLenSize + HeaderIsRespSize + HeaderModuleSize + HeaderCmdSize + HeaderSessionIdSize

/-- Response header size: 4 + 1 + 4 + 4 + 36 + 4 = 53. -/
def ClusterRespHeaderSize : Nat :=
  HeaderLenSize + HeaderIsRespSize + HeaderModuleSize + HeaderCmdSize + HeaderSessionIdSize +
    HeaderCodeSize

/-- Cluster request message (`ClusterReqMsg`): module and command are
`uint32` values, the session id is a byte string (Go `string`), the payload
raw bytes. -/
structure ClusterReqMsg where
  Module : Nat
  Cmd : Nat
  SessionId : List Byte
  Payload : List Byte
deriving DecidableEq, Repr

/-- Cluster response message (`ClusterRespMsg`): the request fields plus a
`uint32` result code (0 = success). -/
structure ClusterRespMsg where
  Module : Nat
  Cmd : Nat
  SessionId : List Byte
  Code : Nat
  Payload : List Byte
deriving DecidableEq, Repr

/-- Model of `binary.BigEndian.PutUint32`: the four big-endian bytes of the
low 32 bits of `v`. -/
def toBytesBE4 (v : Nat) : List Byte :=
  [v / 2 ^ 24 % 256, v / 2 ^ 16 % 256, v / 2 ^ 8 % 256, v % 256]

/-- Model of `binary.BigEndian.Uint32` on a 4-byte buffer. -/
def fromBytesBE4 : List Byte → Nat
  | [a, b, c, d] => ((a * 256 + b) * 256 + c) * 256 + d
  | _ => 0

/-- `padSessionId`: pad the session id to exactly 36 bytes.  A session id of
36 bytes or more is truncated to its first 36 bytes; a shorter one is
right-padded — `string(make([]byte, 36-len(sessionId)))` appends zero (null)
bytes, not spaces. -/
def padSessionId (sessionId : List Byte) : List Byte :=
  if 36 ≤ sessionId.length then sessionId.take 36
  else sessionId ++ List.replicate (36 - sessionId.length) 0

/-- `trimSessionId`: strip trailing space (32) and null (0) bytes, scanning
from the end; an all-padding id trims to the empty string. -/
def trimSessionId (sessionId : List Byte) : List Byte :=
  (sessionId.reverse.dropWhile fun b => b == 32 || b == 0).reverse

/-- A session id with no trailing space or null byte (the shape produced by
`trimSessionId`, and the precondition for the encode/decode roundtrip). -/
def sessionIdClean (s : List Byte) : Bool :=
  match s.getLast? with
  | none => true
  | some b => !(b == 32 || b == 0)

/-- `EncodeClusterReqMsg`: length (excluding the length field itself), tag 0,
module, cmd, padded session id, payload. -/
def EncodeClusterReqMsg (msg : ClusterReqMsg) : List Byte :=
  toBytesBE4 ((ClusterReqHeaderSize + msg.Payload.length - 4) % 2 ^ 32) ++
    [MsgTypeRequest] ++
    toBytesBE4 msg.Module ++
    toBytesBE4 msg.Cmd ++
    padSessionId msg.SessionId ++
    msg.Payload

/-- `EncodeClusterRespMsg`: length (excluding the length field itself),
tag 1, module, cmd, padded session id, code, payload. -/
def EncodeClusterRespMsg (msg : ClusterRespMsg) : List Byte :=
  toBytesBE4 ((ClusterRespHeaderSize + msg.Payload.length - 4) % 2 ^ 32) ++
    [MsgTypeResponse] ++
    toBytesBE4 msg.Module ++
    toBytesBE4 msg.Cmd ++
    padSessionId msg.SessionId ++
    toBytesBE4 msg.Code ++
    msg.Payload

/-- Decoding error cases (the `fmt.Errorf` returns of `DecodeMsg` and its
helpers). -/
inductive DecodeErr where
  /-- reading the 4-byte length field failed -/
  | readLenFailed
  /-- reading the 1-byte type tag failed -/
  | readTypeFailed
  /-- unknown message type tag -/
  | unknownType (tag : Byte)
  /-- short read while reading the body of a request message -/
  | readReqFailed
  /-- short read while reading the body of a response message -/
  | readRespFailed
deriving DecidableEq, Repr

/-- A decoded message: either a request or a response. -/
inductive DecodedMsg where
  | req (m : ClusterReqMsg)
  | resp (m : ClusterRespMsg)
deriving DecidableEq, Repr

/-- The outcome of running the decoder on a byte stream: a decoded message,
an error return, or a Go runtime panic (slice bounds out of range). -/
inductive DecodeOutcome where
  | ok (m : DecodedMsg)
  | fail (e : DecodeErr)
  | goPanic
deriving DecidableEq, Repr

/-- Model of `io.ReadFull`: read exactly `k` bytes from the stream, failing
if fewer are available. -/
def readFull (k : Nat) (s : List Byte) : Option (List Byte × List Byte) :=
  if s.length < k then none else some (s.take k, s.drop k)

/-- `decodeClusterReqMsg`: read `msgLen - 1` further bytes (uint32
subtraction) and slice out module, cmd, session id and payload.  When the
read succeeds but the buffer is shorter than the 44 fixed header bytes the
Go code indexes past the end of the slice and panics. -/
def decodeClusterReqMsg (s : List Byte) (msgLen : Nat) : DecodeOutcome :=
  let remainLen := if msgLen = 0 then 2 ^ 32 - 1 else msgLen - 1
  match readFull remainLen s with
  | none => .fail .readReqFailed
  | some (buf, _) =>
    if 44 ≤ buf.length then
      .ok (.req
        { Module := fromBytesBE4 (buf.take 4)
          Cmd := fromBytesBE4 ((buf.drop 4).take 4)
          SessionId := trimSessionId ((buf.drop 8).take 36)
          Payload := buf.drop 44 })
    else .goPanic

/-- `decodeClusterRespMsg`: as `decodeClusterReqMsg` plus the 4-byte code;
the fixed part is 48 bytes, and a shorter successfully-read buffer panics. -/
def decodeClusterRespMsg (s : List Byte) (msgLen : Nat) : DecodeOutcome :=
  let remainLen := if msgLen = 0 then 2 ^ 32 - 1 else msgLen - 1
  match readFull remainLen s with
  | none => .fail .readRespFailed
  | some (buf, _) =>
    if 48 ≤ buf.length then
      .ok (.resp
        { Module := fromBytesBE4 (buf.take 4)
          Cmd := fromBytesBE4 ((buf.drop 4).take 4)
          SessionId := trimSessionId ((buf.drop 8).take 36)
          Code := fromBytesBE4 ((buf.drop 44).take 4)
          Payload := buf.drop 48 })
    else .goPanic

/-- `DecodeMsg`: read the 4-byte length, the 1-byte type tag, and dispatch
on the tag (0 request, 1 response, otherwise an unknown-type error). -/
def DecodeMsg (s : List Byte) : DecodeOutcome :=
  match readFull 4 s with
  | none => .fail .readLenFailed
  | some (lenBuf, s1) =>
    let msgLen := fromBytesBE4 lenBuf
    match readFull 1 s1 with
    | none => .fail .readTypeFailed
    | some (isRespBuf, s2) =>
      let isResp := isRespBuf.headI
      if isResp = MsgTypeRequest then decodeClusterReqMsg s2 msgLen
      else if isResp = MsgTypeResponse then decodeClusterRespMsg s2 msgLen
      else .fail (.unknownType isResp)

/-- The fixed heartbeat session id, the bytes of the Go string literal
`"heartbeat"`. -/
def heartbeatSessionId : List Byte := [104, 101, 97, 114, 116, 98, 101, 97, 116]

/-- The request message constructed and written by `SendHeartbeat`. -/
def SendHeartbeatMsg : ClusterReqMsg :=
  { Module := HeartbeatModule
    Cmd := HeartbeatCmd
    SessionId := heartbeatSessionId
    Payload := [] }

/-- `IsHeartbeatMsg`: a message is a heartbeat exactly when its module is
`HeartbeatModule` and its cmd is `HeartbeatCmd`. -/
def IsHeartbeatMsg (module cmd : Nat) : Bool :=
  module == HeartbeatModule && cmd == HeartbeatCmd

/-- `HandleHeartbeatReq`: the response written back for a heartbeat request
echoes the request's module, cmd and session id with `HeartbeatCode` and an
empty payload. -/
def HandleHeartbeatReq (req : ClusterReqMsg) : ClusterRespMsg :=
  { Module := req.Module
    Cmd := req.Cmd
    SessionId := req.SessionId
    Code := HeartbeatCode
    Payload := [] }

/-- What the server's per-connection loop does with one decoded message:
the bytes it writes back (if any) and whether it invoked a router. -/
structure ServerStep where
  written : Option (List Byte)
  routerUsed : Bool
deriving DecidableEq, Repr

/-- One iteration of `DefaultHandler.HandleConnection` after a successful
decode: a heartbeat request is answered by `HandleHeartbeatReq`, any other
request is echoed back with code 0, and a response message is only logged.
No branch consults a router. -/
def HandleConnectionMsg : DecodedMsg → ServerStep
  | .req v =>
    if IsHeartbeatMsg v.Module v.Cmd then
      { written := some (EncodeClusterRespMsg (HandleHeartbeatReq v)), routerUsed := false }
    else
      { written := some (EncodeClusterRespMsg
          { Module := v.Module
            Cmd := v.Cmd
            SessionId := v.SessionId
            Code := 0
            Payload := v.Payload })
        routerUsed := false }
  | .resp _ => { written := none, routerUsed := false }

end tcp

namespace cluster

/-- A live TCP connection, identified abstractly. -/
abbrev Conn := Nat

/-- `ConnectionPool`: the fixed-length connection slot list, the free-slot
index queue (the buffered `freeConns` channel, with a flag recording
whether the channel has been closed), the dial target, the pool size and
the closed flag. -/
structure ConnectionPool where
  conns : List (Option Conn)
  freeConns : List Nat
  freeClosed : Bool
  target : String
  poolSize : Nat
  closed : Bool
deriving DecidableEq, Repr

/-- The close-all loop inside `ConnectionPool.Close`: walk the slots in
order, skip nil slots, call `Close` on each connection — and return early
on the first connection whose `Close` errors.  `closeErr c = true` means
closing connection `c` reports an error.  Result: the connections whose
`Close` was called, in order, and whether the loop ran to completion. -/
def closeConnsLoop (closeErr : Conn → Bool) : List (Option Conn) → List Conn × Bool
  | [] => ([], true)
  | none :: rest => closeConnsLoop closeErr rest
  | some c :: rest =>
    if closeErr c then ([c], false)
    else
      let r := closeConnsLoop closeErr rest
      (c :: r.1, r.2)

/-- `ConnectionPool.Close`: a no-op when already closed; otherwise set the
closed flag, run the close-all loop, and close the `freeConns` channel only
if that loop completed (the early `return` on a connection-close error
skips it).  The second component lists the connections whose `Close` was
called. -/
def ConnectionPool.Close (closeErr : Conn → Bool) (p : ConnectionPool) :
    ConnectionPool × List Conn :=
  if p.closed then (p, [])
  else
    let r := closeConnsLoop closeErr p.conns
    ({ p with closed := true, freeClosed := r.2 }, r.1)

/-- Outcome of `ConnectionPool.Get`: a connection plus the updated pool, an
immediate pool-closed error, or blocking on an empty free queue. -/
inductive GetResult where
  | ok (c : Conn) (p : ConnectionPool)
  | errClosed
  | blocked
deriving DecidableEq, Repr

/-- `ConnectionPool.Get`: fail immediately when the pool is closed,
otherwise take the next free slot index (blocking when none is free) and
return the connection stored in that slot. -/
def ConnectionPool.Get (p : ConnectionPool) : GetResult :=
  if p.closed then .errClosed
  else
    match p.freeConns with
    | [] => .blocked
    | idx :: rest => .ok ((p.conns.getD idx none).getD 0) { p with freeConns := rest }

/-- The sequential dial loop of `NewConnectionPool`: dial slot `i`, then
`i+1`, …; stop at the first failing dial.  Returns the connections opened
in order and the index of the failing dial, if any.  `dial i` is the result
of the `i`-th `DialContext` call. -/
def dialConns (dial : Nat → Option Conn) : Nat → Nat → List Conn × Option Nat
  | _, 0 => ([], none)
  | i, k + 1 =>
    match dial i with
    | none => ([], some i)
    | some c =>
      let r := dialConns dial (i + 1) k
      (c :: r.1, r.2)

/-- Result of `NewConnectionPool`: either a fully filled pool, or an error
carrying the failing dial index, the connections whose `Close` was called
during teardown, and whether the free-list channel got closed. -/
inductive NewPoolResult where
  | ok (p : ConnectionPool)
  | err (failIndex : Nat) (closeCalled : List Conn) (freeListClosed : Bool)
deriving DecidableEq, Repr

/-- `NewConnectionPool`: a non-positive size defaults to 4; dial `size`
connections sequentially, marking each slot free; on any dial failure run
`Close` on the partially filled pool and return an error. -/
def NewConnectionPool (dial : Nat → Option Conn) (closeErr : Conn → Bool)
    (target : String) (poolSize : Int) : NewPoolResult :=
  let size := if poolSize ≤ 0 then 4 else poolSize.toNat
  match dialConns dial 0 size with
  | (opened, some j) =>
    let conns := opened.map some ++ List.replicate (size - j) none
    let r := closeConnsLoop closeErr conns
    .err j r.1 r.2
  | (opened, none) =>
    .ok { conns := opened.map some
          freeConns := List.range size
          freeClosed := false
          target := target
          poolSize := size
          closed := false }

/-- Router handle result: either the single handler invocation performed
(the handler, named by an abstract identifier, applied to the payload), or
the not-registered error. -/
inductive HandleResult where
  | invoked (handler : Nat) (payload : List Byte)
  | notRegistered (module cmd : Nat)
deriving DecidableEq, Repr

/-- `Router`: the handler table, a map from the composite 64-bit route key
to a handler (handlers are named by abstract identifiers; Go closures have
no useful equality, and `Handle` reports which handler it invokes). -/
structure Router where
  handlers : Nat → Option Nat

/-- `NewRouter`: the empty handler table. -/
def NewRouter : Router := ⟨fun _ => none⟩

/-- `makeRouteKey`: the composite key `(uint64(module) << 32) | uint64(cmd)`. -/
def makeRouteKey (module cmd : Nat) : Nat := (module <<< 32) ||| cmd

/-- `Router.Register`: store the handler under the composite key
(overwriting any previous entry, as Go map assignment does). -/
def Router.Register (r : Router) (module cmd handler : Nat) : Router :=
  ⟨fun k => if k = makeRouteKey module cmd then some handler else r.handlers k⟩

/-- `Router.Unregister`: delete the composite key's entry. -/
def Router.Unregister (r : Router) (module cmd : Nat) : Router :=
  ⟨fun k => if k = makeRouteKey module cmd then none else r.handlers k⟩

/-- `Router.Handle`: look up the composite key; absent means a
not-registered error and no invocation, present means exactly one
invocation of that handler on the payload. -/
def Router.Handle (r : Router) (module cmd : Nat) (payload : List Byte) : HandleResult :=
  match r.handlers (makeRouteKey module cmd) with
  | none => .notRegistered module cmd
  | some h => .invoked h payload

/-- Network address of a service (`config.Addr`). -/
structure Addr where
  Host : String
  Port : Int
deriving DecidableEq, Repr

/-- Application config of a peer (`config.AppConfig`) as the cluster layer
reads it: numeric id (`uint16`), type and environment strings, address, and
the `Data` map represented by its JSON serialization (the Go code compares
`Data` maps by comparing their `json.Marshal` output). -/
structure AppConfig where
  Id : Nat
  AppType : String
  Environment : String
  Addr : Addr
  DataJSON : String
deriving DecidableEq, Repr

/-- `isConfigChanged`: nil on either side counts as changed; otherwise
compare id, type, environment, host, port, and the JSON serialization of
the `Data` map. -/
def isConfigChanged : Option AppConfig → Option AppConfig → Bool
  | none, _ => true
  | some _, none => true
  | some o, some n =>
    o.Id != n.Id || o.AppType != n.AppType || o.Environment != n.Environment ||
      o.Addr.Host != n.Addr.Host || o.Addr.Port != n.Addr.Port || o.DataJSON != n.DataJSON

/-- Node status `NodeStatusDisconnected = 0`. -/
def NodeStatusDisconnected : Nat := 0

/-- Node status `NodeStatusConnecting = 1`. -/
def NodeStatusConnecting : Nat := 1

/-- Node status `NodeStatusConnected = 2`. -/
def NodeStatusConnected : Nat := 2

/-- Node status `NodeStatusFailed = 3`. -/
def NodeStatusFailed : Nat := 3

/-- Peer `Node` state relevant to the lifecycle claims: identity fields,
config snapshot, the owned pool (nil when disconnected), the status value,
and whether the stop channel has been closed. -/
structure Node where
  ServiceID : String
  Id : Nat
  NodeType : String
  Environment : String
  Config : AppConfig
  connPool : Option ConnectionPool
  status : Nat
  stopChanClosed : Bool
deriving DecidableEq, Repr

/-- `NewNode`: a fresh disconnected node with its identity and config taken
from the service entry, an open stop channel and no pool. -/
def NewNode (serviceID : String) (appConfig : AppConfig) : Node :=
  { ServiceID := serviceID
    Id := appConfig.Id
    NodeType := appConfig.AppType
    Environment := appConfig.Environment
    Config := appConfig
    connPool := none
    status := NodeStatusDisconnected
    stopChanClosed := false }

/-- A Go runtime panic reachable from the node lifecycle code. -/
inductive GoPanic where
  /-- `close` of an already-closed channel -/
  | closeOfClosedChannel
deriving DecidableEq, Repr

/-- Outcome of `Node.Disconnect`: the node state afterwards, or a runtime
panic. -/
inductive DisconnectResult where
  | ok (n : Node)
  | goPanic (p : GoPanic)
deriving DecidableEq, Repr

/-- `Node.Disconnect`: unconditionally `close(n.stopChan)` — a runtime
panic when the channel is already closed — then, if a pool exists, close
it, drop it and set the status to `NodeStatusDisconnected`. -/
def Node.Disconnect (n : Node) : DisconnectResult :=
  if n.stopChanClosed then .goPanic .closeOfClosedChannel
  else
    let n1 := { n with stopChanClosed := true }
    match n1.connPool with
    | some _ => .ok { n1 with connPool := none, status := NodeStatusDisconnected }
    | none => .ok n1

/-- Association-list lookup, the model of reading a Go map keyed by
service id. -/
def lookupAssoc {α : Type} : List (String × α) → String → Option α
  | [], _ => none
  | (k, v) :: rest, sid => if k = sid then some v else lookupAssoc rest sid

/-- Result of `Manager.AddNode`: the node map afterwards, the returned
error (Go `nil` is `none`), and whether an asynchronous `Connect` was
started. -/
structure AddNodeResult where
  nodes : List (String × Node)
  errReturned : Option String
  connectStarted : Bool
deriving DecidableEq, Repr

/-- `Manager.AddNode`: when the service id is already present, log and
return `nil` without touching the map or dialing; otherwise insert a fresh
`NewNode` and start an asynchronous `Connect`. -/
def AddNode (nodes : List (String × Node)) (serviceID : String) (appConfig : AppConfig) :
    AddNodeResult :=
  if (lookupAssoc nodes serviceID).isSome then
    { nodes := nodes, errReturned := none, connectStarted := false }
  else
    { nodes := (serviceID, NewNode serviceID appConfig) :: nodes
      errReturned := none
      connectStarted := true }

/-- The add/update loop of `handleServiceChange`, additions: a current
service id that is not the local instance and has no existing node is
added. -/
def diffAdded (selfServiceID : String) (existing : List (String × AppConfig)) :
    List (String × AppConfig) → List String
  | [] => []
  | (sid, _) :: rest =>
    if sid = selfServiceID then diffAdded selfServiceID existing rest
    else if (lookupAssoc existing sid).isSome then diffAdded selfServiceID existing rest
    else sid :: diffAdded selfServiceID existing rest

/-- The add/update loop of `handleServiceChange`, updates: a current
service id that is not the local instance and has an existing node is
updated exactly when `isConfigChanged` holds between the existing node's
config and the newly parsed one. -/
def diffUpdated (selfServiceID : String) (existing : List (String × AppConfig)) :
    List (String × AppConfig) → List String
  | [] => []
  | (sid, cfg) :: rest =>
    if sid = selfServiceID then diffUpdated selfServiceID existing rest
    else
      match lookupAssoc existing sid with
      | none => diffUpdated selfServiceID existing rest
      | some old =>
        if isConfigChanged (some old) (some cfg) then
          sid :: diffUpdated selfServiceID existing rest
        else diffUpdated selfServiceID existing rest

/-- The removal loop of `handleServiceChange`: an existing service id
absent from the current set is removed. -/
def diffRemoved (current : List (String × AppConfig)) :
    List (String × AppConfig) → List String
  | [] => []
  | (sid, _) :: rest =>
    if (lookupAssoc current sid).isSome then diffRemoved current rest
    else sid :: diffRemoved current rest

/-- The three event sets emitted by one diff pass. -/
structure DiffResult where
  added : List String
  removed : List String
  updated : List String
deriving DecidableEq, Repr

/-- `handleServiceChange`: diff the freshly fetched healthy service entries
(already parsed to configs; entries whose parse fails are skipped by the Go
code and are not modelled) against the existing node map, excluding the
local instance's own service id from the add/update loop. -/
def handleServiceChange (selfServiceID : String)
    (existing current : List (String × AppConfig)) : DiffResult :=
  { added := diffAdded selfServiceID existing current
    removed := diffRemoved current existing
    updated := diffUpdated selfServiceID existing current }

end cluster

namespace tcp

theorem toBytesBE4_length (v : Nat) : (toBytesBE4 v).length = 4 := by
  simp [toBytesBE4]

theorem fromBytesBE4_toBytesBE4 (v : Nat) :
    fromBytesBE4 (toBytesBE4 v) = v % 2 ^ 32 := by
  simp only [toBytesBE4, fromBytesBE4]
  omega

theorem padSessionId_length (s : List Byte) : (padSessionId s).length = 36 := by
  unfold padSessionId
  split <;> simp <;> omega

theorem padSessionId_of_le (s : List Byte) (h : s.length ≤ 36) :
    padSessionId s = s ++ List.replicate (36 - s.length) 0 := by
  unfold padSessionId
  split
  · have : s.length = 36 := by omega
    simp [this, List.take_of_length_le]
  · rfl

theorem trimSessionId_append_replicate (s : List Byte) (k : Nat) :
    trimSessionId (s ++ List.replicate k 0) = trimSessionId s := by
  unfold trimSessionId
  rw [List.reverse_append, List.reverse_replicate]
  congr 1
  induction k with
  | zero => simp
  | succ n ih => simp [List.replicate_succ, ih]

theorem trimSessionId_of_clean (s : List Byte) (h : sessionIdClean s = true) :
    trimSessionId s = s := by
  unfold trimSessionId
  match hs : s.reverse with
  | [] => simp_all
  | b :: t =>
    have hb : s.getLast? = some b := by
      rw [List.getLast?_eq_head?_reverse, hs]
      rfl
    unfold sessionIdClean at h
    rw [hb] at h
    simp only [Bool.not_eq_true'] at h
    rw [List.dropWhile_cons, h]
    simp [← hs]

theorem trimSessionId_padSessionId (s : List Byte) (h1 : s.length ≤ 36)
    (h2 : sessionIdClean s = true) :
    trimSessionId (padSessionId s) = s := by
  rw [padSessionId_of_le s h1, trimSessionId_append_replicate,
    trimSessionId_of_clean s h2]

theorem readFull_append (k : Nat) (l r : List Byte) (h : l.length = k) :
    readFull k (l ++ r) = some (l, r) := by
  unfold readFull
  rw [if_neg (by simp [h]), List.take_left' h, List.drop_left' h]

theorem readFull_exact (k : Nat) (l : List Byte) (h : l.length = k) :
    readFull k l = some (l, []) := by
  have := readFull_append k l [] h
  simpa using this

theorem ClusterReqHeaderSize_eq : ClusterReqHeaderSize = 49 := rfl

theorem ClusterRespHeaderSize_eq : ClusterRespHeaderSize = 53 := rfl

/-- Slicing the fixed 44-byte prefix (module, cmd, session id) out of a
message body recovers the encoded pieces. -/
theorem body_take_4 (M C : Nat) (S T : List Byte) :
    (toBytesBE4 M ++ (toBytesBE4 C ++ (padSessionId S ++ T))).take 4 = toBytesBE4 M :=
  List.take_left' (toBytesBE4_length M)

theorem body_drop_4_take_4 (M C : Nat) (S T : List Byte) :
    ((toBytesBE4 M ++ (toBytesBE4 C ++ (padSessionId S ++ T))).drop 4).take 4 =
      toBytesBE4 C := by
  rw [List.drop_left' (toBytesBE4_length M)]
  exact List.take_left' (toBytesBE4_length C)

theorem body_drop_8_take_36 (M C : Nat) (S T : List Byte) :
    ((toBytesBE4 M ++ (toBytesBE4 C ++ (padSessionId S ++ T))).drop 8).take 36 =
      padSessionId S := by
  have hassoc : toBytesBE4 M ++ (toBytesBE4 C ++ (padSessionId S ++ T)) =
      (toBytesBE4 M ++ toBytesBE4 C) ++ (padSessionId S ++ T) := by
    simp [List.append_assoc]
  have h8 : (toBytesBE4 M ++ toBytesBE4 C).length = 8 := by simp [toBytesBE4]
  rw [hassoc, List.drop_left' h8]
  exact List.take_left' (padSessionId_length S)

theorem body_drop_44 (M C : Nat) (S T : List Byte) :
    (toBytesBE4 M ++ (toBytesBE4 C ++ (padSessionId S ++ T))).drop 44 = T := by
  have hassoc : toBytesBE4 M ++ (toBytesBE4 C ++ (padSessionId S ++ T)) =
      ((toBytesBE4 M ++ toBytesBE4 C) ++ padSessionId S) ++ T := by
    simp [List.append_assoc]
  have h44 : ((toBytesBE4 M ++ toBytesBE4 C) ++ padSessionId S).length = 44 := by
    simp [toBytesBE4, padSessionId_length]
  rw [hassoc, List.drop_left' h44]

theorem body_length (M C : Nat) (S T : List Byte) :
    (toBytesBE4 M ++ (toBytesBE4 C ++ (padSessionId S ++ T))).length = 44 + T.length := by
  simp [toBytesBE4, padSessionId_length]
  omega

/-- Decoding the encoding of a request message recovers the message, for any
module and cmd of `uint32` range, any session id of length at most 36 with
no trailing space or null byte, and any payload whose total frame length
fits the 4-byte length field. -/
theorem DecodeMsg_encode_req (msg : ClusterReqMsg) (hM : msg.Module < 2 ^ 32)
    (hC : msg.Cmd < 2 ^ 32) (hs : msg.SessionId.length ≤ 36)
    (hclean : sessionIdClean msg.SessionId = true)
    (hp : 45 + msg.Payload.length < 2 ^ 32) :
    DecodeMsg (EncodeClusterReqMsg msg) = .ok (.req msg) := by
  obtain ⟨M, C, S, P⟩ := msg
  simp only at hM hC hs hclean hp
  have hbody : EncodeClusterReqMsg ⟨M, C, S, P⟩ =
      toBytesBE4 ((ClusterReqHeaderSize + P.length - 4) % 2 ^ 32) ++
        ([MsgTypeRequest] ++ (toBytesBE4 M ++ (toBytesBE4 C ++ (padSessionId S ++ P)))) := by
    simp [EncodeClusterReqMsg, List.append_assoc]
  rw [hbody]
  unfold DecodeMsg
  rw [readFull_append 4 _ _ (toBytesBE4_length _)]
  simp only
  rw [readFull_append 1 [MsgTypeRequest] _ rfl]
  simp only [List.headI, fromBytesBE4_toBytesBE4]
  have hlen : (ClusterReqHeaderSize + P.length - 4) % 2 ^ 32 % 2 ^ 32 = 45 + P.length := by
    rw [ClusterReqHeaderSize_eq]
    omega
  rw [hlen]
  show decodeClusterReqMsg _ _ = _
  unfold decodeClusterReqMsg
  rw [if_neg (by omega)]
  have hrl : 45 + P.length - 1 = 44 + P.length := by omega
  simp only [hrl]
  rw [readFull_exact _ _ (body_length M C S P)]
  simp only
  rw [if_pos (by rw [body_length]; omega)]
  rw [body_take_4, body_drop_4_take_4, body_drop_8_take_36, body_drop_44,
    fromBytesBE4_toBytesBE4, fromBytesBE4_toBytesBE4,
    Nat.mod_eq_of_lt hM, Nat.mod_eq_of_lt hC,
    trimSessionId_padSessionId S hs hclean]

theorem body_drop_44_take_4 (M C K : Nat) (S P : List Byte) :
    ((toBytesBE4 M ++ (toBytesBE4 C ++ (padSessionId S ++ (toBytesBE4 K ++ P)))).drop 44).take 4 =
      toBytesBE4 K := by
  rw [body_drop_44]
  exact List.take_left' (toBytesBE4_length K)

theorem body_drop_48 (M C K : Nat) (S P : List Byte) :
    (toBytesBE4 M ++ (toBytesBE4 C ++ (padSessionId S ++ (toBytesBE4 K ++ P)))).drop 48 = P := by
  have h : List.drop 48 (toBytesBE4 M ++ (toBytesBE4 C ++ (padSessionId S ++ (toBytesBE4 K ++ P)))) =
      List.drop 4 (List.drop 44 (toBytesBE4 M ++ (toBytesBE4 C ++ (padSessionId S ++ (toBytesBE4 K ++ P))))) := by
    rw [List.drop_drop]
  rw [h, body_drop_44, List.drop_left' (toBytesBE4_length K)]

/-- Decoding the encoding of a response message recovers the message, under
the same validity conditions as for requests (the code is additionally a
`uint32`, and the response header is 53 bytes). -/
theorem DecodeMsg_encode_resp (msg : ClusterRespMsg) (hM : msg.Module < 2 ^ 32)
    (hC : msg.Cmd < 2 ^ 32) (hK : msg.Code < 2 ^ 32) (hs : msg.SessionId.length ≤ 36)
    (hclean : sessionIdClean msg.SessionId = true)
    (hp : 49 + msg.Payload.length < 2 ^ 32) :
    DecodeMsg (EncodeClusterRespMsg msg) = .ok (.resp msg) := by
  obtain ⟨M, C, S, K, P⟩ := msg
  simp only at hM hC hK hs hclean hp
  have hbody : EncodeClusterRespMsg ⟨M, C, S, K, P⟩ =
      toBytesBE4 ((ClusterRespHeaderSize + P.length - 4) % 2 ^ 32) ++
        ([MsgTypeResponse] ++
          (toBytesBE4 M ++ (toBytesBE4 C ++ (padSessionId S ++ (toBytesBE4 K ++ P))))) := by
    simp [EncodeClusterRespMsg, List.append_assoc]
  rw [hbody]
  unfold DecodeMsg
  rw [readFull_append 4 _ _ (toBytesBE4_length _)]
  simp only
  rw [readFull_append 1 [MsgTypeResponse] _ rfl]
  simp only [List.headI, fromBytesBE4_toBytesBE4]
  have hlen : (ClusterRespHeaderSize + P.length - 4) % 2 ^ 32 % 2 ^ 32 = 49 + P.length := by
    rw [ClusterRespHeaderSize_eq]
    omega
  rw [hlen]
  show decodeClusterRespMsg _ _ = _
  unfold decodeClusterRespMsg
  rw [if_neg (by omega)]
  have hrl : 49 + P.length - 1 = 48 + P.length := by omega
  simp only [hrl]
  have hblen : (toBytesBE4 M ++ (toBytesBE4 C ++ (padSessionId S ++ (toBytesBE4 K ++ P)))).length =
      48 + P.length := by
    rw [body_length]
    simp [toBytesBE4]
    omega
  rw [readFull_exact _ _ hblen]
  simp only
  rw [if_pos (by rw [hblen]; omega)]
  rw [body_take_4, body_drop_4_take_4, body_drop_8_take_36, body_drop_44_take_4, body_drop_48,
    fromBytesBE4_toBytesBE4, fromBytesBE4_toBytesBE4, fromBytesBE4_toBytesBE4,
    Nat.mod_eq_of_lt hM, Nat.mod_eq_of_lt hC, Nat.mod_eq_of_lt hK,
    trimSessionId_padSessionId S hs hclean]

/-- C1: for every valid frame — request or response, with module, cmd and
code in `uint32` range, a session id of length at most 36 with no trailing
space or null byte, and a payload whose total frame length is representable
in the 4-byte length field (which covers every payload size 0, 1, 4095,
4096, …) — decoding the encoding yields the original frame: equal Module,
Cmd, SessionId, Code (for responses) and Payload. -/
theorem frame_decode_encode_roundtrip (req : ClusterReqMsg) (resp : ClusterRespMsg)
    (hM : req.Module < 2 ^ 32) (hC : req.Cmd < 2 ^ 32)
    (hs : req.SessionId.length ≤ 36) (hclean : sessionIdClean req.SessionId = true)
    (hp : 45 + req.Payload.length < 2 ^ 32)
    (hM' : resp.Module < 2 ^ 32) (hC' : resp.Cmd < 2 ^ 32) (hK' : resp.Code < 2 ^ 32)
    (hs' : resp.SessionId.length ≤ 36) (hclean' : sessionIdClean resp.SessionId = true)
    (hp' : 49 + resp.Payload.length < 2 ^ 32) :
    DecodeMsg (EncodeClusterReqMsg req) = .ok (.req req) ∧
    DecodeMsg (EncodeClusterRespMsg resp) = .ok (.resp resp) :=
  ⟨DecodeMsg_encode_req req hM hC hs hclean hp,
    DecodeMsg_encode_resp resp hM' hC' hK' hs' hclean' hp'⟩

/-- C1 witness: the roundtrip at a concrete request with a 4096-byte
payload and a concrete response with a 1-byte payload. -/
theorem frame_decode_encode_roundtrip_witness :
    ((3 : Nat) < 2 ^ 32 ∧ (7 : Nat) < 2 ^ 32 ∧
      ([97, 98, 99] : List Byte).length ≤ 36 ∧ sessionIdClean [97, 98, 99] = true ∧
      45 + (List.replicate 4096 7 : List Byte).length < 2 ^ 32 ∧
      (2 : Nat) < 2 ^ 32 ∧ (9 : Nat) < 2 ^ 32 ∧ (5 : Nat) < 2 ^ 32 ∧
      ([] : List Byte).length ≤ 36 ∧ sessionIdClean ([] : List Byte) = true ∧
      49 + ([1] : List Byte).length < 2 ^ 32) ∧
    DecodeMsg (EncodeClusterReqMsg ⟨3, 7, [97, 98, 99], List.replicate 4096 7⟩) =
      .ok (.req ⟨3, 7, [97, 98, 99], List.replicate 4096 7⟩) ∧
    DecodeMsg (EncodeClusterRespMsg ⟨2, 9, [], 5, [1]⟩) =
      .ok (.resp ⟨2, 9, [], 5, [1]⟩) :=
  ⟨⟨by decide, by decide, by decide, by decide,
      by rw [List.length_replicate]; decide, by decide,
      by decide, by decide, by decide, by decide, by decide⟩,
    frame_decode_encode_roundtrip ⟨3, 7, [97, 98, 99], List.replicate 4096 7⟩
      ⟨2, 9, [], 5, [1]⟩ (by decide) (by decide) (by decide) (by decide)
      (by rw [List.length_replicate]; decide)
      (by decide) (by decide) (by decide) (by decide) (by decide) (by decide)⟩

/-- C9: the decoder is not total — on a frame whose length field is smaller
than the fixed header size but whose bytes are all present, the Go code
slices past the end of the read buffer and panics (for both type tags),
while short reads and unknown type tags do return error values as the
claim says. -/
theorem DecodeMsg_bad_length_panics :
    DecodeMsg [0, 0, 0, 10, 0, 1, 2, 3, 4, 5, 6, 7, 8, 9] = .goPanic ∧
    DecodeMsg [0, 0, 0, 10, 1, 1, 2, 3, 4, 5, 6, 7, 8, 9] = .goPanic ∧
    DecodeMsg [0, 0] = .fail .readLenFailed ∧
    DecodeMsg [0, 0, 0, 10] = .fail .readTypeFailed ∧
    DecodeMsg [0, 0, 0, 100, 0, 1, 2, 3] = .fail .readReqFailed ∧
    DecodeMsg [0, 0, 0, 10, 7, 1, 2, 3, 4, 5, 6, 7, 8, 9] = .fail (.unknownType 7) := by
  decide

/-- C2 counterexample: `padSessionId` right-pads with null bytes (0x00),
not with space characters (0x20): padding the one-byte session id `[97]`
yields `[97]` followed by 35 nulls, not 35 spaces. -/
theorem padSessionId_nulls_counterexample :
    padSessionId [97] ≠ [97] ++ List.replicate 35 32 ∧
    padSessionId [97] = [97] ++ List.replicate 35 0 := by decide

/-- C2 (amended): encoding writes exactly 36 session id bytes: a shorter
session id is right-padded with null bytes (0x00, not spaces) to exactly
36 bytes, a longer one is truncated to its first 36 bytes, and decoding
strips trailing space and null bytes, recovering any logical id of length
at most 36 with no trailing space or null byte. -/
theorem sessionId_fixed_width (s t : List Byte) (hs : s.length ≤ 36)
    (hclean : sessionIdClean s = true) (ht : 36 ≤ t.length) :
    (padSessionId s).length = 36 ∧
    padSessionId s = s ++ List.replicate (36 - s.length) 0 ∧
    trimSessionId (padSessionId s) = s ∧
    padSessionId t = t.take 36 ∧
    (padSessionId t).length = 36 := by
  refine ⟨padSessionId_length s, padSessionId_of_le s hs,
    trimSessionId_padSessionId s hs hclean, ?_, padSessionId_length t⟩
  unfold padSessionId
  rw [if_pos ht]

/-- C2 witness: padding and trimming at a concrete short id and a concrete
40-byte id. -/
theorem sessionId_fixed_width_witness :
    (([104, 105] : List Byte).length ≤ 36 ∧ sessionIdClean [104, 105] = true ∧
      36 ≤ (List.replicate 40 97 : List Byte).length) ∧
    ((padSessionId [104, 105]).length = 36 ∧
      padSessionId [104, 105] = [104, 105] ++ List.replicate 34 0 ∧
      trimSessionId (padSessionId [104, 105]) = [104, 105] ∧
      padSessionId (List.replicate 40 97) = (List.replicate 40 97 : List Byte).take 36 ∧
      (padSessionId (List.replicate 40 97)).length = 36) :=
  ⟨⟨by decide, by decide, by decide⟩,
    sessionId_fixed_width [104, 105] (List.replicate 40 97) (by decide) (by decide) (by decide)⟩

/-- C3 counterexample: the heartbeat combination in the code is Module=0,
Cmd=1, not Module=0, Cmd=0: `SendHeartbeat` constructs a request with
Cmd=1, and `IsHeartbeatMsg 0 0` is false, so a (0,0) request is not
treated as a heartbeat. -/
theorem heartbeat_cmd_counterexample :
    SendHeartbeatMsg.Cmd = 1 ∧ IsHeartbeatMsg 0 0 = false ∧ IsHeartbeatMsg 0 1 = true := by
  decide

/-- C3 (amended): the heartbeat message is exactly Module=0, Cmd=1 with the
fixed session id "heartbeat" and empty payload, and every received request
with that combination is answered immediately by a response carrying the
same module, the same cmd, the identical session id and Code=0, without
consulting any router. -/
theorem heartbeat_echo (req : ClusterReqMsg)
    (h : IsHeartbeatMsg req.Module req.Cmd = true) :
    req.Module = 0 ∧ req.Cmd = 1 ∧
    HandleConnectionMsg (.req req) =
      { written := some (EncodeClusterRespMsg
          { Module := req.Module
            Cmd := req.Cmd
            SessionId := req.SessionId
            Code := 0
            Payload := [] })
        routerUsed := false } ∧
    SendHeartbeatMsg = { Module := 0, Cmd := 1, SessionId := heartbeatSessionId, Payload := [] } := by
  have hmc : req.Module = 0 ∧ req.Cmd = 1 := by
    unfold IsHeartbeatMsg HeartbeatModule HeartbeatCmd at h
    simpa using h
  refine ⟨hmc.1, hmc.2, ?_, rfl⟩
  unfold HandleConnectionMsg
  simp only
  rw [if_pos h]
  rfl

/-- C3 witness: the heartbeat echo at the concrete heartbeat request
itself. -/
theorem heartbeat_echo_witness :
    IsHeartbeatMsg SendHeartbeatMsg.Module SendHeartbeatMsg.Cmd = true ∧
    (SendHeartbeatMsg.Module = 0 ∧ SendHeartbeatMsg.Cmd = 1 ∧
      HandleConnectionMsg (.req SendHeartbeatMsg) =
        { written := some (EncodeClusterRespMsg
            { Module := SendHeartbeatMsg.Module
              Cmd := SendHeartbeatMsg.Cmd
              SessionId := SendHeartbeatMsg.SessionId
              Code := 0
              Payload := [] })
          routerUsed := false } ∧
      SendHeartbeatMsg = { Module := 0, Cmd := 1, SessionId := heartbeatSessionId, Payload := [] }) :=
  ⟨by decide, heartbeat_echo SendHeartbeatMsg (by decide)⟩

end tcp

namespace cluster

theorem makeRouteKey_eq (module cmd : Nat) (hc : cmd < 2 ^ 32) :
    makeRouteKey module cmd = module * 2 ^ 32 + cmd := by
  unfold makeRouteKey
  apply Nat.eq_of_testBit_eq
  intro j
  rw [Nat.testBit_lor, Nat.testBit_shiftLeft]
  have hcomm : module * 2 ^ 32 + cmd = 2 ^ 32 * module + cmd := by ring
  rw [hcomm, Nat.testBit_mul_pow_two_add module hc j]
  by_cases hj : j < 32
  · have hge : ¬32 ≤ j := by omega
    simp [hj, hge]
  · have hc2 : cmd < 2 ^ j :=
      lt_of_lt_of_le hc (Nat.pow_le_pow_right (by norm_num) (by omega))
    have hge : 32 ≤ j := by omega
    simp [hj, hge, Nat.testBit_eq_false_of_lt hc2]

/-- C7: registering a handler for (m, c) and then dispatching (m, c,
payload) performs exactly one invocation, of exactly that handler on
exactly that payload; dispatching any pair whose composite key has no
entry returns the not-registered error and performs no invocation; and
lookup is by the single 64-bit key `(module << 32) | cmd`, which equals
`module * 2^32 + cmd` and is injective on uint32 pairs. -/
theorem router_register_dispatch (r : Router) (module cmd handler : Nat)
    (payload : List Byte) (hm : module < 2 ^ 32) (hc : cmd < 2 ^ 32) :
    Router.Handle (Router.Register r module cmd handler) module cmd payload =
      .invoked handler payload ∧
    (∀ m c p, r.handlers (makeRouteKey m c) = none →
      Router.Handle r m c p = .notRegistered m c) ∧
    makeRouteKey module cmd = module * 2 ^ 32 + cmd ∧
    makeRouteKey module cmd < 2 ^ 64 ∧
    (∀ m c, m < 2 ^ 32 → c < 2 ^ 32 →
      (makeRouteKey module cmd = makeRouteKey m c ↔ (module = m ∧ cmd = c))) := by
  refine ⟨?_, ?_, makeRouteKey_eq module cmd hc, ?_, ?_⟩
  · unfold Router.Handle Router.Register
    simp
  · intro m c p hnone
    unfold Router.Handle
    rw [hnone]
  · rw [makeRouteKey_eq module cmd hc]
    omega
  · intro m c hm' hc'
    rw [makeRouteKey_eq module cmd hc, makeRouteKey_eq m c hc']
    constructor
    · intro h
      exact ⟨by omega, by omega⟩
    · rintro ⟨rfl, rfl⟩
      rfl

/-- C7 witness: register (2, 3) on the empty router and dispatch it with
payload [9]. -/
theorem router_register_dispatch_witness :
    ((2 : Nat) < 2 ^ 32 ∧ (3 : Nat) < 2 ^ 32) ∧
    (Router.Handle (Router.Register NewRouter 2 3 7) 2 3 [9] = .invoked 7 [9] ∧
      (∀ m c p, NewRouter.handlers (makeRouteKey m c) = none →
        Router.Handle NewRouter m c p = .notRegistered m c) ∧
      makeRouteKey 2 3 = 2 * 2 ^ 32 + 3 ∧
      makeRouteKey 2 3 < 2 ^ 64 ∧
      (∀ m c, m < 2 ^ 32 → c < 2 ^ 32 →
        (makeRouteKey 2 3 = makeRouteKey m c ↔ (2 = m ∧ 3 = c)))) :=
  ⟨⟨by decide, by decide⟩, router_register_dispatch NewRouter 2 3 7 [9] (by decide) (by decide)⟩

/-- C8: `Node.Disconnect` does not guard the stop-channel close: on a
connected node the first call succeeds — it closes and drops the pool and
sets the status to Disconnected — but a second call reaches
`close(n.stopChan)` with the channel already closed and panics, instead of
being a safe no-op. -/
theorem Node_Disconnect_double_close_panics :
    Node.Disconnect
        { NewNode "svc-1" ⟨1, "game", "dev", ⟨"localhost", 7070⟩, "{}"⟩ with
            connPool := some ⟨[some 1], [0], false, "localhost:7070", 1, false⟩
            status := NodeStatusConnected } =
      DisconnectResult.ok
        { NewNode "svc-1" ⟨1, "game", "dev", ⟨"localhost", 7070⟩, "{}"⟩ with
            connPool := none, status := NodeStatusDisconnected, stopChanClosed := true } ∧
    Node.Disconnect
        { NewNode "svc-1" ⟨1, "game", "dev", ⟨"localhost", 7070⟩, "{}"⟩ with
            connPool := none, status := NodeStatusDisconnected, stopChanClosed := true } =
      .goPanic .closeOfClosedChannel := by decide

/-- C6: the first `Close` sets the closed flag, a second `Close` is a
no-op, and `Get` after `Close` fails with the pool-closed error — but the
close-all loop returns early on the first connection whose `Close` errors:
with two connections where closing connection 1 errors, `Close` is called
only on connection 1, connection 2 is never closed, and the free-list
channel is never closed or drained. -/
theorem ConnectionPool_Close_stops_at_first_error :
    (ConnectionPool.Close (fun c => c == 1)
        ⟨[some 1, some 2], [0, 1], false, "peer:9000", 2, false⟩).2 = [1] ∧
    (ConnectionPool.Close (fun c => c == 1)
        ⟨[some 1, some 2], [0, 1], false, "peer:9000", 2, false⟩).1 =
      ⟨[some 1, some 2], [0, 1], false, "peer:9000", 2, true⟩ ∧
    ConnectionPool.Get ⟨[some 1, some 2], [0, 1], false, "peer:9000", 2, true⟩ = .errClosed ∧
    ConnectionPool.Close (fun c => c == 1)
        ⟨[some 1, some 2], [0, 1], false, "peer:9000", 2, true⟩ =
      (⟨[some 1, some 2], [0, 1], false, "peer:9000", 2, true⟩, []) := by decide

/-- C10: `Manager.AddNode` on an already-present service id returns nil,
leaves the node map (and hence the existing node and its config) unchanged,
and starts no connection attempt. -/
theorem AddNode_idempotent (nodes : List (String × Node)) (serviceID : String)
    (appConfig : AppConfig) (h : (lookupAssoc nodes serviceID).isSome = true) :
    AddNode nodes serviceID appConfig =
      { nodes := nodes, errReturned := none, connectStarted := false } := by
  unfold AddNode
  rw [if_pos h]

/-- C10 witness: re-adding service id "svc-a" with a different config is a
no-op. -/
theorem AddNode_idempotent_witness :
    (lookupAssoc [("svc-a", NewNode "svc-a" ⟨1, "game", "dev", ⟨"host-a", 1⟩, "{}"⟩)]
        "svc-a").isSome = true ∧
    AddNode [("svc-a", NewNode "svc-a" ⟨1, "game", "dev", ⟨"host-a", 1⟩, "{}"⟩)] "svc-a"
        ⟨2, "gate", "prod", ⟨"host-b", 2⟩, "[]"⟩ =
      { nodes := [("svc-a", NewNode "svc-a" ⟨1, "game", "dev", ⟨"host-a", 1⟩, "{}"⟩)]
        errReturned := none
        connectStarted := false } :=
  ⟨by decide, AddNode_idempotent _ _ _ (by decide)⟩

theorem dialConns_first_fail (dial : Nat → Option Conn) (j k i : Nat)
    (h1 : i ≤ j) (h2 : j < i + k) (hfail : dial j = none)
    (hok : ∀ t, i ≤ t → t < j → (dial t).isSome = true) :
    dialConns dial i k = ((List.range' i (j - i)).filterMap dial, some j) := by
  induction k generalizing i with
  | zero => omega
  | succ n ih =>
    by_cases hij : i = j
    · subst hij
      unfold dialConns
      rw [hfail]
      simp
    · have hlt : i < j := by omega
      obtain ⟨c, hc⟩ := Option.isSome_iff_exists.mp (hok i (le_refl i) hlt)
      unfold dialConns
      rw [hc]
      simp only
      rw [ih (i + 1) (by omega) (by omega) fun t ht1 ht2 => hok t (by omega) ht2]
      have hsub : j - (i + 1) = j - i - 1 := by omega
      have hr : List.range' i (j - i) = i :: List.range' (i + 1) (j - i - 1) := by
        have hji : j - i = (j - i - 1) + 1 := by omega
        rw [hji, List.range'_succ]
        simp
      rw [hr]
      simp [List.filterMap_cons, hc, hsub]

theorem closeConnsLoop_replicate_none (closeErr : Conn → Bool) (k : Nat) :
    closeConnsLoop closeErr (List.replicate k none) = ([], true) := by
  induction k with
  | zero => rfl
  | succ n ih => simp [List.replicate_succ, closeConnsLoop, ih]

theorem closeConnsLoop_map_some (closeErr : Conn → Bool) (l : List Conn)
    (tail : List (Option Conn)) (h : ∀ c ∈ l, closeErr c = false) :
    closeConnsLoop closeErr (l.map some ++ tail) =
      (l ++ (closeConnsLoop closeErr tail).1, (closeConnsLoop closeErr tail).2) := by
  induction l with
  | nil => simp
  | cons c cs ih =>
    have hc : closeErr c = false := h c (by simp)
    have hcs : ∀ x ∈ cs, closeErr x = false := fun x hx => h x (by simp [hx])
    simp [closeConnsLoop, hc, ih hcs, List.append_eq]

/-- C5 counterexample: with three slots, dials 0 and 1 succeeding (conns
100 and 101), dial 2 failing, and conn 100's own `Close` erroring, the
teardown calls `Close` only on conn 100: conn 101 — a connection opened
so far by this very run — is never closed, and the free-list channel is
never closed, refuting "closes every connection opened so far" as stated. -/
theorem NewConnectionPool_close_error_leaks :
    NewConnectionPool (fun i => if i = 2 then none else some (100 + i)) (fun c => c == 100)
        "peer:9000" 3 = .err 2 [100] false ∧
    (101 : Conn) ∈ (List.range 2).filterMap (fun i => if i = 2 then none else some (100 + i)) ∧
    (101 : Conn) ∉ ([100] : List Conn) := by decide

/-- C5 (amended): pool construction is all-or-nothing in the error sense:
when the `j`-th dial fails (the first failure, within the effective size),
`NewConnectionPool` never returns a pool — it returns an error naming the
failing dial — and it tears the partial pool down via `Close`, which
closes every connection opened so far, in order, and the free-list
channel, provided no connection's own `Close` errors (an erroring `Close`
stops the teardown early, leaving the later opened connections
unclosed). -/
theorem NewConnectionPool_all_or_nothing (dial : Nat → Option Conn)
    (closeErr : Conn → Bool) (target : String) (poolSize : Int) (j : Nat)
    (hj : j < if poolSize ≤ 0 then 4 else poolSize.toNat)
    (hfail : dial j = none)
    (hok : ∀ i, i < j → (dial i).isSome = true) :
    (∀ p, NewConnectionPool dial closeErr target poolSize ≠ .ok p) ∧
    (∃ called freeListClosed,
      NewConnectionPool dial closeErr target poolSize = .err j called freeListClosed) ∧
    ((∀ i c, i < j → dial i = some c → closeErr c = false) →
      NewConnectionPool dial closeErr target poolSize =
        .err j ((List.range j).filterMap dial) true) := by
  have hred : NewConnectionPool dial closeErr target poolSize =
      .err j
        (closeConnsLoop closeErr
          (((List.range' 0 (j - 0)).filterMap dial).map some ++
            List.replicate ((if poolSize ≤ 0 then 4 else poolSize.toNat) - j) none)).1
        (closeConnsLoop closeErr
          (((List.range' 0 (j - 0)).filterMap dial).map some ++
            List.replicate ((if poolSize ≤ 0 then 4 else poolSize.toNat) - j) none)).2 := by
    unfold NewConnectionPool
    dsimp only
    rw [dialConns_first_fail dial j (if poolSize ≤ 0 then 4 else poolSize.toNat) 0
      (by omega) (by omega) hfail fun t ht1 ht2 => hok t ht2]
  refine ⟨?_, ?_, ?_⟩
  · intro p hp
    rw [hred] at hp
    exact NewPoolResult.noConfusion hp
  · exact ⟨_, _, hred⟩
  · intro hclose
    rw [hred]
    have hmem : ∀ c ∈ (List.range' 0 (j - 0)).filterMap dial, closeErr c = false := by
      intro c hcmem
      obtain ⟨t, ht, hdt⟩ := List.mem_filterMap.mp hcmem
      have htj : t < j := by
        have := List.mem_range'_1.mp ht
        omega
      exact hclose t c htj hdt
    rw [closeConnsLoop_map_some closeErr _ _ hmem, closeConnsLoop_replicate_none]
    simp [List.range_eq_range']


theorem lookupAssoc_isSome_iff {α : Type} (l : List (String × α)) (sid : String) :
    (lookupAssoc l sid).isSome = true ↔ sid ∈ l.map Prod.fst := by
  induction l with
  | nil => simp [lookupAssoc]
  | cons e rest ih =>
    obtain ⟨k, v⟩ := e
    by_cases hk : k = sid
    · subst hk
      simp [lookupAssoc]
    · simp [lookupAssoc, hk, ih, Ne.symm hk]

theorem lookupAssoc_eq_none_iff {α : Type} (l : List (String × α)) (sid : String) :
    lookupAssoc l sid = none ↔ sid ∉ l.map Prod.fst := by
  rw [← lookupAssoc_isSome_iff]
  cases lookupAssoc l sid <;> simp

theorem lookupAssoc_eq_some_iff_mem {α : Type} (l : List (String × α))
    (hnd : (l.map Prod.fst).Nodup) (sid : String) (v : α) :
    lookupAssoc l sid = some v ↔ (sid, v) ∈ l := by
  induction l with
  | nil => simp [lookupAssoc]
  | cons e rest ih =>
    obtain ⟨k, w⟩ := e
    simp only [List.map_cons, List.nodup_cons] at hnd
    by_cases hk : k = sid
    · subst hk
      simp only [lookupAssoc, if_pos rfl, List.mem_cons]
      constructor
      · intro h
        left
        simp [(Option.some.injEq _ _).mp h]
      · rintro (heq | hmem)
        · obtain ⟨-, rfl⟩ := Prod.mk.injEq .. |>.mp heq.symm
          rfl
        · exact absurd (List.mem_map_of_mem Prod.fst hmem) hnd.1
    · simp only [lookupAssoc, if_neg hk, List.mem_cons]
      rw [ih hnd.2]
      constructor
      · exact fun h => Or.inr h
      · rintro (heq | hmem)
        · exact absurd (congrArg Prod.fst heq).symm hk
        · exact hmem

theorem mem_diffAdded (selfServiceID : String) (ex cur : List (String × AppConfig))
    (sid : String) :
    sid ∈ diffAdded selfServiceID ex cur ↔
      (sid ≠ selfServiceID ∧ lookupAssoc ex sid = none ∧ sid ∈ cur.map Prod.fst) := by
  induction cur with
  | nil => simp [diffAdded]
  | cons e rest ih =>
    obtain ⟨k, c⟩ := e
    by_cases hk : k = selfServiceID
    · have hstep : diffAdded selfServiceID ex ((k, c) :: rest) =
          diffAdded selfServiceID ex rest := by
        simp [diffAdded, hk]
      subst hk
      rw [hstep, ih]
      simp only [List.map_cons, List.mem_cons]
      constructor
      · rintro ⟨h1, h2, h3⟩
        exact ⟨h1, h2, Or.inr h3⟩
      · rintro ⟨h1, h2, hsk | h3⟩
        · exact absurd hsk h1
        · exact ⟨h1, h2, h3⟩
    · by_cases hex : (lookupAssoc ex k).isSome = true
      · have hstep : diffAdded selfServiceID ex ((k, c) :: rest) =
            diffAdded selfServiceID ex rest := by
          simp [diffAdded, hk, hex]
        rw [hstep, ih]
        simp only [List.map_cons, List.mem_cons]
        constructor
        · rintro ⟨h1, h2, h3⟩
          exact ⟨h1, h2, Or.inr h3⟩
        · rintro ⟨h1, h2, hsk | h3⟩
          · subst hsk
            rw [h2] at hex
            simp at hex
          · exact ⟨h1, h2, h3⟩
      · have hstep : diffAdded selfServiceID ex ((k, c) :: rest) =
            k :: diffAdded selfServiceID ex rest := by
          simp [diffAdded, hk, hex]
        rw [hstep]
        simp only [List.mem_cons, ih, List.map_cons]
        constructor
        · rintro (rfl | ⟨h1, h2, h3⟩)
          · refine ⟨hk, ?_, Or.inl rfl⟩
            cases h : lookupAssoc ex sid with
            | none => rfl
            | some w => exact absurd (by rw [h]; rfl) hex
          · exact ⟨h1, h2, Or.inr h3⟩
        · rintro ⟨h1, h2, hsk | h3⟩
          · exact Or.inl hsk
          · exact Or.inr ⟨h1, h2, h3⟩

theorem mem_diffRemoved (cur ex : List (String × AppConfig)) (sid : String) :
    sid ∈ diffRemoved cur ex ↔
      (lookupAssoc cur sid = none ∧ sid ∈ ex.map Prod.fst) := by
  induction ex with
  | nil => simp [diffRemoved]
  | cons e rest ih =>
    obtain ⟨k, c⟩ := e
    by_cases hk : (lookupAssoc cur k).isSome = true
    · have hstep : diffRemoved cur ((k, c) :: rest) = diffRemoved cur rest := by
        simp [diffRemoved, hk]
      rw [hstep, ih]
      simp only [List.map_cons, List.mem_cons]
      constructor
      · rintro ⟨h1, h2⟩
        exact ⟨h1, Or.inr h2⟩
      · rintro ⟨h1, hsk | h2⟩
        · subst hsk
          rw [h1] at hk
          simp at hk
        · exact ⟨h1, h2⟩
    · have hstep : diffRemoved cur ((k, c) :: rest) = k :: diffRemoved cur rest := by
        simp [diffRemoved, hk]
      rw [hstep]
      simp only [List.mem_cons, ih, List.map_cons]
      constructor
      · rintro (rfl | ⟨h1, h2⟩)
        · refine ⟨?_, Or.inl rfl⟩
          cases h : lookupAssoc cur sid with
          | none => rfl
          | some w => exact absurd (by rw [h]; rfl) hk
        · exact ⟨h1, Or.inr h2⟩
      · rintro ⟨h1, hsk | h2⟩
        · exact Or.inl hsk
        · exact Or.inr ⟨h1, h2⟩

theorem mem_diffUpdated (selfServiceID : String) (ex cur : List (String × AppConfig))
    (sid : String) :
    sid ∈ diffUpdated selfServiceID ex cur ↔
      (sid ≠ selfServiceID ∧ ∃ o c, lookupAssoc ex sid = some o ∧ (sid, c) ∈ cur ∧
        isConfigChanged (some o) (some c) = true) := by
  induction cur with
  | nil => simp [diffUpdated]
  | cons e rest ih =>
    obtain ⟨k, cfg⟩ := e
    by_cases hk : k = selfServiceID
    · have hstep : diffUpdated selfServiceID ex ((k, cfg) :: rest) =
          diffUpdated selfServiceID ex rest := by
        simp [diffUpdated, hk]
      subst hk
      rw [hstep, ih]
      simp only [List.mem_cons]
      constructor
      · rintro ⟨h1, o, c, h2, h3, h4⟩
        exact ⟨h1, o, c, h2, Or.inr h3, h4⟩
      · rintro ⟨h1, o, c, h2, heq | h3, h4⟩
        · injection heq with hs hc
          exact absurd hs h1
        · exact ⟨h1, o, c, h2, h3, h4⟩
    · cases hex : lookupAssoc ex k with
      | none =>
        have hstep : diffUpdated selfServiceID ex ((k, cfg) :: rest) =
            diffUpdated selfServiceID ex rest := by
          simp [diffUpdated, hk, hex]
        rw [hstep, ih]
        simp only [List.mem_cons]
        constructor
        · rintro ⟨h1, o, c, h2, h3, h4⟩
          exact ⟨h1, o, c, h2, Or.inr h3, h4⟩
        · rintro ⟨h1, o, c, h2, heq | h3, h4⟩
          · injection heq with hs hc
            rw [hs] at h2
            rw [h2] at hex
            exact absurd hex (by simp)
          · exact ⟨h1, o, c, h2, h3, h4⟩
      | some old =>
        by_cases hch : isConfigChanged (some old) (some cfg) = true
        · have hstep : diffUpdated selfServiceID ex ((k, cfg) :: rest) =
              k :: diffUpdated selfServiceID ex rest := by
            simp [diffUpdated, hk, hex, hch]
          rw [hstep]
          simp only [List.mem_cons, ih]
          constructor
          · rintro (rfl | ⟨h1, o, c, h2, h3, h4⟩)
            · exact ⟨hk, old, cfg, hex, Or.inl rfl, hch⟩
            · exact ⟨h1, o, c, h2, Or.inr h3, h4⟩
          · rintro ⟨h1, o, c, h2, heq | h3, h4⟩
            · injection heq with hs hc
              exact Or.inl hs
            · exact Or.inr ⟨h1, o, c, h2, h3, h4⟩
        · have hstep : diffUpdated selfServiceID ex ((k, cfg) :: rest) =
              diffUpdated selfServiceID ex rest := by
            simp [diffUpdated, hk, hex, hch]
          rw [hstep, ih]
          constructor
          · rintro ⟨h1, o, c, h2, h3, h4⟩
            exact ⟨h1, o, c, h2, List.mem_cons_of_mem _ h3, h4⟩
          · rintro ⟨h1, o, c, h2, h3, h4⟩
            rcases List.mem_cons.mp h3 with heq | h3m
            · exfalso
              injection heq with hs hc
              rw [hs] at h2
              rw [h2] at hex
              have ho : o = old := by injection hex
              rw [ho, hc] at h4
              exact hch h4
            · exact ⟨h1, o, c, h2, h3m, h4⟩

/-- C5 witness: three slots, the dial of slot 1 fails: no pool is
returned, the error names slot 1, and — every close succeeding here —
exactly connection 100 (the one opened) is closed and the free list is
closed. -/
theorem NewConnectionPool_all_or_nothing_witness :
    ((1 : Nat) < (if (3 : Int) ≤ 0 then 4 else (3 : Int).toNat) ∧
      (fun i => if i = 1 then none else some (100 + i)) 1 = none ∧
      (∀ i, i < 1 → ((fun i => if i = 1 then none else some (100 + i)) i).isSome = true)) ∧
    ((∀ p, NewConnectionPool (fun i => if i = 1 then none else some (100 + i)) (fun _ => false)
        "peer:9000" 3 ≠ .ok p) ∧
      (∃ called freeListClosed,
        NewConnectionPool (fun i => if i = 1 then none else some (100 + i)) (fun _ => false)
          "peer:9000" 3 = .err 1 called freeListClosed) ∧
      ((∀ i c, i < 1 → (fun i => if i = 1 then none else some (100 + i)) i = some c →
          (fun _ => false) c = false) →
        NewConnectionPool (fun i => if i = 1 then none else some (100 + i)) (fun _ => false)
          "peer:9000" 3 =
          .err 1 ((List.range 1).filterMap (fun i => if i = 1 then none else some (100 + i)))
            true)) :=
  ⟨⟨by decide, by decide, by decide⟩,
    NewConnectionPool_all_or_nothing (fun i => if i = 1 then none else some (100 + i))
      (fun _ => false) "peer:9000" 3 1 (by decide) (by decide) (by decide)⟩

/-- C4: one diff pass of the Manager over an old node map and a newly
fetched healthy set (keyed by unique service ids and excluding the local
instance's own identity): an id only in the new set is added, an id only in
the old map is removed, and an id in both is updated exactly when its
parsed config differs — that is, differs in id, type, environment, host,
port, or the JSON serialization of its data; in particular with previous
set {A, B} and new set {B, C} and B's config unchanged the result is
Added = [C], Removed = [A], Updated = [], and with B's config changed
Updated = [B]. -/
theorem handleServiceChange_diff (selfServiceID : String)
    (existing current : List (String × AppConfig))
    (hnd : (current.map Prod.fst).Nodup)
    (hself : selfServiceID ∉ current.map Prod.fst)
    (sid : String) (cA cB cB' cC : AppConfig)
    (hchanged : isConfigChanged (some cB) (some cB') = true) :
    (sid ∈ (handleServiceChange selfServiceID existing current).added ↔
      ((lookupAssoc current sid).isSome = true ∧ lookupAssoc existing sid = none)) ∧
    (sid ∈ (handleServiceChange selfServiceID existing current).removed ↔
      ((lookupAssoc existing sid).isSome = true ∧ lookupAssoc current sid = none)) ∧
    (∀ oldCfg newCfg, lookupAssoc existing sid = some oldCfg →
      lookupAssoc current sid = some newCfg →
      (sid ∈ (handleServiceChange selfServiceID existing current).updated ↔
        isConfigChanged (some oldCfg) (some newCfg) = true)) ∧
    (∀ o n : AppConfig, isConfigChanged (some o) (some n) = true ↔
      (o.Id ≠ n.Id ∨ o.AppType ≠ n.AppType ∨ o.Environment ≠ n.Environment ∨
        o.Addr.Host ≠ n.Addr.Host ∨ o.Addr.Port ≠ n.Addr.Port ∨
        o.DataJSON ≠ n.DataJSON)) ∧
    handleServiceChange "self" [("A", cA), ("B", cB)] [("B", cB), ("C", cC)] =
      { added := ["C"], removed := ["A"], updated := [] } ∧
    handleServiceChange "self" [("A", cA), ("B", cB)] [("B", cB'), ("C", cC)] =
      { added := ["C"], removed := ["A"], updated := ["B"] } := by
  refine ⟨?_, ?_, ?_, ?_, ?_, ?_⟩
  · show sid ∈ diffAdded selfServiceID existing current ↔ _
    rw [mem_diffAdded, lookupAssoc_isSome_iff]
    constructor
    · rintro ⟨h1, h2, h3⟩
      exact ⟨h3, h2⟩
    · rintro ⟨h3, h2⟩
      exact ⟨fun hs => hself (hs ▸ h3), h2, h3⟩
  · show sid ∈ diffRemoved current existing ↔ _
    rw [mem_diffRemoved, lookupAssoc_isSome_iff]
    tauto
  · intro oldCfg newCfg hex hcur
    show sid ∈ diffUpdated selfServiceID existing current ↔ _
    rw [mem_diffUpdated]
    constructor
    · rintro ⟨h1, o, c, h2, h3, h4⟩
      have ho : o = oldCfg := by
        rw [h2] at hex
        injection hex
      have hcm : lookupAssoc current sid = some c :=
        (lookupAssoc_eq_some_iff_mem current hnd sid c).mpr h3
      have hc : c = newCfg := by
        rw [hcm] at hcur
        injection hcur
      rw [← ho, ← hc]
      exact h4
    · intro h4
      have hmemk : sid ∈ current.map Prod.fst :=
        (lookupAssoc_isSome_iff current sid).mp (by rw [hcur]; rfl)
      refine ⟨fun hs => hself (hs ▸ hmemk), oldCfg, newCfg, hex, ?_, h4⟩
      exact (lookupAssoc_eq_some_iff_mem current hnd sid newCfg).mp hcur
  · intro o n
    simp only [isConfigChanged, Bool.or_eq_true, bne_iff_ne, ne_eq]
    tauto
  · have hno : isConfigChanged (some cB) (some cB) = false := by
      simp [isConfigChanged]
    simp [handleServiceChange, diffAdded, diffUpdated, diffRemoved, lookupAssoc, hno]
  · simp [handleServiceChange, diffAdded, diffUpdated, diffRemoved, lookupAssoc, hchanged]

/-- C4 witness: the concrete {A, B} versus {B, C} example with explicit
configs (B changed to a different port in the changed variant), and the
added-set characterization instantiated at sid = "C". -/
theorem handleServiceChange_diff_witness :
    (([("B", (⟨2, "b", "e", ⟨"h2", 2⟩, "{}"⟩ : AppConfig)), ("C", (⟨3, "c", "e", ⟨"h3", 3⟩, "{}"⟩ : AppConfig))].map Prod.fst).Nodup ∧
      "self" ∉ [("B", (⟨2, "b", "e", ⟨"h2", 2⟩, "{}"⟩ : AppConfig)), ("C", (⟨3, "c", "e", ⟨"h3", 3⟩, "{}"⟩ : AppConfig))].map Prod.fst ∧
      isConfigChanged (some (⟨2, "b", "e", ⟨"h2", 2⟩, "{}"⟩ : AppConfig)) (some (⟨2, "b", "e", ⟨"h2", 9⟩, "{}"⟩ : AppConfig)) = true) ∧
    ("C" ∈ (handleServiceChange "self" [("A", (⟨1, "a", "e", ⟨"h1", 1⟩, "{}"⟩ : AppConfig)), ("B", (⟨2, "b", "e", ⟨"h2", 2⟩, "{}"⟩ : AppConfig))]
        [("B", (⟨2, "b", "e", ⟨"h2", 2⟩, "{}"⟩ : AppConfig)), ("C", (⟨3, "c", "e", ⟨"h3", 3⟩, "{}"⟩ : AppConfig))]).added ↔
      ((lookupAssoc [("B", (⟨2, "b", "e", ⟨"h2", 2⟩, "{}"⟩ : AppConfig)), ("C", (⟨3, "c", "e", ⟨"h3", 3⟩, "{}"⟩ : AppConfig))] "C").isSome = true ∧
        lookupAssoc [("A", (⟨1, "a", "e", ⟨"h1", 1⟩, "{}"⟩ : AppConfig)), ("B", (⟨2, "b", "e", ⟨"h2", 2⟩, "{}"⟩ : AppConfig))] "C" = none)) ∧
    handleServiceChange "self" [("A", (⟨1, "a", "e", ⟨"h1", 1⟩, "{}"⟩ : AppConfig)), ("B", (⟨2, "b", "e", ⟨"h2", 2⟩, "{}"⟩ : AppConfig))]
        [("B", (⟨2, "b", "e", ⟨"h2", 2⟩, "{}"⟩ : AppConfig)), ("C", (⟨3, "c", "e", ⟨"h3", 3⟩, "{}"⟩ : AppConfig))] =
      { added := ["C"], removed := ["A"], updated := [] } ∧
    handleServiceChange "self" [("A", (⟨1, "a", "e", ⟨"h1", 1⟩, "{}"⟩ : AppConfig)), ("B", (⟨2, "b", "e", ⟨"h2", 2⟩, "{}"⟩ : AppConfig))]
        [("B", (⟨2, "b", "e", ⟨"h2", 9⟩, "{}"⟩ : AppConfig)), ("C", (⟨3, "c", "e", ⟨"h3", 3⟩, "{}"⟩ : AppConfig))] =
      { added := ["C"], removed := ["A"], updated := ["B"] } :=
  ⟨⟨by decide, by decide, by decide⟩,
    (handleServiceChange_diff "self"
      [("A", (⟨1, "a", "e", ⟨"h1", 1⟩, "{}"⟩ : AppConfig)), ("B", (⟨2, "b", "e", ⟨"h2", 2⟩, "{}"⟩ : AppConfig))]
      [("B", (⟨2, "b", "e", ⟨"h2", 2⟩, "{}"⟩ : AppConfig)), ("C", (⟨3, "c", "e", ⟨"h3", 3⟩, "{}"⟩ : AppConfig))]
      (by decide) (by decide) "C"
      (⟨1, "a", "e", ⟨"h1", 1⟩, "{}"⟩ : AppConfig) (⟨2, "b", "e", ⟨"h2", 2⟩, "{}"⟩ : AppConfig)
      (⟨2, "b", "e", ⟨"h2", 9⟩, "{}"⟩ : AppConfig) (⟨3, "c", "e", ⟨"h3", 3⟩, "{}"⟩ : AppConfig)
      (by decide)).1,
    (handleServiceChange_diff "self"
      [("A", (⟨1, "a", "e", ⟨"h1", 1⟩, "{}"⟩ : AppConfig)), ("B", (⟨2, "b", "e", ⟨"h2", 2⟩, "{}"⟩ : AppConfig))]
      [("B", (⟨2, "b", "e", ⟨"h2", 2⟩, "{}"⟩ : AppConfig)), ("C", (⟨3, "c", "e", ⟨"h3", 3⟩, "{}"⟩ : AppConfig))]
      (by decide) (by decide) "C"
      (⟨1, "a", "e", ⟨"h1", 1⟩, "{}"⟩ : AppConfig) (⟨2, "b", "e", ⟨"h2", 2⟩, "{}"⟩ : AppConfig)
      (⟨2, "b", "e", ⟨"h2", 9⟩, "{}"⟩ : AppConfig) (⟨3, "c", "e", ⟨"h3", 3⟩, "{}"⟩ : AppConfig)
      (by decide)).2.2.2.2.1,
    (handleServiceChange_diff "self"
      [("A", (⟨1, "a", "e", ⟨"h1", 1⟩, "{}"⟩ : AppConfig)), ("B", (⟨2, "b", "e", ⟨"h2", 2⟩, "{}"⟩ : AppConfig))]
      [("B", (⟨2, "b", "e", ⟨"h2", 2⟩, "{}"⟩ : AppConfig)), ("C", (⟨3, "c", "e", ⟨"h3", 3⟩, "{}"⟩ : AppConfig))]
      (by decide) (by decide) "C"
      (⟨1, "a", "e", ⟨"h1", 1⟩, "{}"⟩ : AppConfig) (⟨2, "b", "e", ⟨"h2", 2⟩, "{}"⟩ : AppConfig)
      (⟨2, "b", "e", ⟨"h2", 9⟩, "{}"⟩ : AppConfig) (⟨3, "c", "e", ⟨"h3", 3⟩, "{}"⟩ : AppConfig)
      (by decide)).2.2.2.2.2⟩

end cluster

end Charry
